import Mathlib

/-!
Shallow embedding of the `goveelife` Home Assistant integration
(`custom_components/goveelife/light.py` and
`custom_components/goveelife/services.py`) together with theorems
settling the specification claims about it.

Python dictionaries are embedded as association lists with
insertion-order semantics (`dictInsert` updates in place, `dictGet`
returns the first — hence unique — binding).  Python values that flow
through the cached-state store and capability commands are embedded as
the inductive `PyVal`.  Awaiting the remote control call and the
host-notification call are embedded as an event trace (`Event`), with
the outcome of each remote call supplied by an oracle
`ctl : Capability → Bool`.
-/

/-- Host state constant `STATE_ON` ("on"). -/
def STATE_ON : String := "on"

/-- Host state constant `STATE_OFF` ("off"). -/
def STATE_OFF : String := "off"

/-- Host state constant `STATE_UNKNOWN` ("unknown"). -/
def STATE_UNKNOWN : String := "unknown"

/-- Embedding of the Python values stored in the cached-state store,
the state mappings and capability commands. -/
inductive PyVal where
  | pyNone
  | pyStr (s : String)
  | pyInt (n : Int)
  deriving DecidableEq, Repr

/-- Dictionary read `d.get(k)` / `d[k]` on an association list: first
binding for the key (bindings are kept unique by `dictInsert`). -/
def dictGet {α β : Type} [DecidableEq α] (k : α) : List (α × β) → Option β
  | [] => none
  | (k', v) :: rest => if k' = k then some v else dictGet k rest

/-- Dictionary write `d[k] = v` on an association list: Python dicts update
the existing binding in place (keeping its position) and append a new
key at the end. -/
def dictInsert {α β : Type} [DecidableEq α] (k : α) (v : β) :
    List (α × β) → List (α × β)
  | [] => [(k, v)]
  | (k', v') :: rest =>
    if k' = k then (k, v) :: rest else (k', v') :: dictInsert k v rest

/-- Embedding of `GoveeLifeLight._getRGBfromI`: decompose a 24-bit integer into
`(red, green, blue)` with red the high byte (`blue = RGBint & 255`,
`green = (RGBint >> 8) & 255`, `red = (RGBint >> 16) & 255`). -/
def _getRGBfromI (RGBint : Nat) : Nat × Nat × Nat :=
  let blue := RGBint &&& 255
  let green := (RGBint >>> 8) &&& 255
  let red := (RGBint >>> 16) &&& 255
  (red, green, blue)

/-- Embedding of `GoveeLifeLight._getIfromRGB`: recompose an RGB triple into an
integer (`(red << 16) + (green << 8) + blue`). -/
def _getIfromRGB (rgb : Nat × Nat × Nat) : Nat :=
  let red := rgb.1
  let green := rgb.2.1
  let blue := rgb.2.2
  (red <<< 16) + (green <<< 8) + blue

theorem and_255_eq_mod (n : Nat) : n &&& 255 = n % 256 := by
  have h := Nat.and_pow_two_sub_one_eq_mod n 8
  norm_num at h
  exact h

theorem getRGB_div_mod (n : Nat) :
    _getRGBfromI n = (n / 65536 % 256, n / 256 % 256, n % 256) := by
  simp [_getRGBfromI, Nat.shiftRight_eq_div_pow, and_255_eq_mod]

theorem getI_eq (r g b : Nat) :
    _getIfromRGB (r, g, b) = r * 65536 + g * 256 + b := by
  simp [_getIfromRGB, Nat.shiftLeft_eq]

/-- C2: for every integer `N < 2^24`, recomposing the triple obtained
by decomposing `N` yields `N`; and for every byte triple, decomposing
the composed integer yields the triple back. -/
theorem rgb_roundtrip (N r g b : Nat)
    (hN : N < 2 ^ 24) (hr : r < 256) (hg : g < 256) (hb : b < 256) :
    _getIfromRGB (_getRGBfromI N) = N ∧
    _getRGBfromI (_getIfromRGB (r, g, b)) = (r, g, b) := by
  rw [getRGB_div_mod, getI_eq, getI_eq, getRGB_div_mod]
  refine ⟨by omega, ?_⟩
  have h1 : (r * 65536 + g * 256 + b) / 65536 % 256 = r := by omega
  have h2 : (r * 65536 + g * 256 + b) / 256 % 256 = g := by omega
  have h3 : (r * 65536 + g * 256 + b) % 256 = b := by omega
  rw [h1, h2, h3]

/-- Witness for `rgb_roundtrip` at `N = 16712052`, `(r, g, b) =
(18, 52, 86)`. -/
theorem rgb_roundtrip_witness :
    _getIfromRGB (_getRGBfromI 16712052) = 16712052 ∧
    _getRGBfromI (_getIfromRGB (18, 52, 86)) = (18, 52, 86) :=
  rgb_roundtrip 16712052 18 52 86 (by decide) (by decide) (by decide)
    (by decide)

/-- An entry of `GoveeLifeLight._scene_mapping`: the
`{'type': ..., 'instance': ..., 'value': ...}` record stored per
synthesized scene name (`inst` embeds the `instance` key, a reserved
word in Lean). -/
structure SceneData where
  type : String
  inst : String
  value : PyVal
  deriving DecidableEq, Repr

/-- One element of a dynamic-scene capability's
`parameters['options']` list; `name` / `value` are `none` when the
corresponding key is absent from the option dict. -/
structure SceneOption where
  name : Option String
  value : Option PyVal
  deriving DecidableEq, Repr

/-- A device capability descriptor from `device_cfg['capabilities']`:
`type`, `instance` (embedded as `inst`), and — for dynamic-scene
capabilities — the `parameters.get('options', [])` list. -/
structure DeviceCap where
  type : String
  inst : String
  options : List SceneOption
  deriving DecidableEq, Repr

/-- The attributes `_init_platform_specific` computes:
`_attr_supported_color_modes` (a set, embedded as a duplicate-free
insertion-ordered list), `_attr_supported_features`,
`_attr_effect_list` and `_scene_mapping`. -/
structure InitResult where
  supportedColorModes : List String
  supportedFeatures : Nat
  effect_list : List String
  scene_mapping : List (String × SceneData)
  deriving DecidableEq, Repr

/-- Feature flag `SUPPORT_EFFECT` of the host's light platform. -/
def SUPPORT_EFFECT : Nat := 4

/-- Insertion `set.add` for `_attr_supported_color_modes`. -/
def setAdd (s : List String) (x : String) : List String :=
  if x ∈ s then s else s ++ [x]

/-- The inner `for option in options` loop of
`_init_platform_specific`: an option carrying both `name` and `value`
appends `f"{scene_instance}_{name}"` to the effect list and binds it in
the scene mapping. -/
def addOptions (scene_instance : String) (el : List String)
    (sm : List (String × SceneData)) :
    List SceneOption → List String × List (String × SceneData)
  | [] => (el, sm)
  | o :: rest =>
    match o.name, o.value with
    | some n, some v =>
      let scene_name := scene_instance ++ "_" ++ n
      addOptions scene_instance (el ++ [scene_name])
        (dictInsert scene_name
          ⟨"devices.capabilities.dynamic_scene", scene_instance, v⟩ sm)
        rest
    | _, _ => addOptions scene_instance el sm rest

/-- One iteration of the `for cap in capabilities` loop of
`_init_platform_specific`. -/
def initStep (st : InitResult) (cap : DeviceCap) : InitResult :=
  if cap.type = "devices.capabilities.on_off" then
    { st with supportedColorModes := setAdd st.supportedColorModes "onoff" }
  else if cap.type = "devices.capabilities.range" ∧ cap.inst = "brightness" then
    { st with supportedColorModes := setAdd st.supportedColorModes "brightness" }
  else if cap.type = "devices.capabilities.color_setting" ∧ cap.inst = "colorRgb" then
    { st with supportedColorModes := setAdd st.supportedColorModes "rgb" }
  else if cap.type = "devices.capabilities.color_setting" ∧ cap.inst = "colorTemperatureK" then
    { st with supportedColorModes := setAdd st.supportedColorModes "color_temp" }
  else if cap.type = "devices.capabilities.dynamic_scene" then
    let p := addOptions cap.inst st.effect_list st.scene_mapping cap.options
    { st with supportedFeatures := st.supportedFeatures ||| SUPPORT_EFFECT,
              effect_list := p.1, scene_mapping := p.2 }
  else st

/-- Loop of `_init_platform_specific` over the capability list,
threading the attribute state. -/
def initLoop (st : InitResult) : List DeviceCap → InitResult
  | [] => st
  | cap :: rest => initLoop (initStep st cap) rest

/-- Embedding of `GoveeLifeLight._init_platform_specific`: starting from freshly
reset attributes (`_attr_effect_list = []`, `_scene_mapping` empty,
`_attr_supported_features = 0`), processes the capability list. -/
def _init_platform_specific (capabilities : List DeviceCap) : InitResult :=
  initLoop ⟨[], 0, [], []⟩ capabilities

/-- The `(scene_name, scene_data)` pairs generated by one
dynamic-scene capability's options, in generation order. -/
def optionPairs (scene_instance : String) :
    List SceneOption → List (String × SceneData)
  | [] => []
  | o :: rest =>
    match o.name, o.value with
    | some n, some v =>
      (scene_instance ++ "_" ++ n,
        ⟨"devices.capabilities.dynamic_scene", scene_instance, v⟩) ::
        optionPairs scene_instance rest
    | _, _ => optionPairs scene_instance rest

/-- All `(scene_name, scene_data)` pairs generated by a capability
list, in generation order. -/
def scenePairs : List DeviceCap → List (String × SceneData)
  | [] => []
  | cap :: rest =>
    (if cap.type = "devices.capabilities.dynamic_scene" then
      optionPairs cap.inst cap.options
    else []) ++ scenePairs rest

/-- Folding `dictInsert` over a pair list, as the loops do. -/
def insertAll (m : List (String × SceneData)) :
    List (String × SceneData) → List (String × SceneData)
  | [] => m
  | p :: rest => insertAll (dictInsert p.1 p.2 m) rest

theorem addOptions_eq (i : String) (el : List String)
    (sm : List (String × SceneData)) (opts : List SceneOption) :
    addOptions i el sm opts =
      (el ++ (optionPairs i opts).map Prod.fst,
        insertAll sm (optionPairs i opts)) := by
  induction opts generalizing el sm with
  | nil => simp [addOptions, optionPairs, insertAll]
  | cons o rest ih =>
    match hn : o.name, hv : o.value with
    | some n, some v => simp [addOptions, optionPairs, hn, hv, ih, insertAll]
    | some n, none => simp [addOptions, optionPairs, hn, hv, ih]
    | none, some v => simp [addOptions, optionPairs, hn, hv, ih]
    | none, none => simp [addOptions, optionPairs, hn, hv, ih]

theorem insertAll_append (m : List (String × SceneData))
    (p q : List (String × SceneData)) :
    insertAll m (p ++ q) = insertAll (insertAll m p) q := by
  induction p generalizing m with
  | nil => simp [insertAll]
  | cons x rest ih => simp [insertAll, ih]

theorem initLoop_scenes (st : InitResult) (caps : List DeviceCap) :
    (initLoop st caps).effect_list =
        st.effect_list ++ (scenePairs caps).map Prod.fst ∧
      (initLoop st caps).scene_mapping =
        insertAll st.scene_mapping (scenePairs caps) := by
  induction caps generalizing st with
  | nil => simp [initLoop, scenePairs, insertAll]
  | cons cap rest ih =>
    have hstep : (initStep st cap).effect_list =
        st.effect_list ++
          (if cap.type = "devices.capabilities.dynamic_scene" then
            optionPairs cap.inst cap.options else []).map Prod.fst ∧
        (initStep st cap).scene_mapping =
          insertAll st.scene_mapping
            (if cap.type = "devices.capabilities.dynamic_scene" then
              optionPairs cap.inst cap.options else []) := by
      unfold initStep
      split
      · rename_i h
        simp [h, insertAll]
      · split
        · rename_i h
          simp [h.1, insertAll]
        · split
          · rename_i h
            simp [h.1, insertAll]
          · split
            · rename_i h
              simp [h.1, insertAll]
            · split
              · rename_i h
                simp [h, addOptions_eq]
              · rename_i h
                simp [h, insertAll]
    rw [initLoop, scenePairs]
    rcases ih (initStep st cap) with ⟨ih1, ih2⟩
    rw [ih1, ih2, hstep.1, hstep.2, insertAll_append]
    simp

theorem dictGet_dictInsert_same (k : String) (v : SceneData)
    (m : List (String × SceneData)) :
    dictGet k (dictInsert k v m) = some v := by
  induction m with
  | nil => simp [dictInsert, dictGet]
  | cons p rest ih =>
    by_cases h : p.1 = k
    · simp [dictInsert, dictGet, h]
    · simp [dictInsert, dictGet, h, ih]

theorem dictGet_dictInsert_other (k k' : String) (v : SceneData)
    (m : List (String × SceneData)) (hne : k' ≠ k) :
    dictGet k (dictInsert k' v m) = dictGet k m := by
  induction m with
  | nil => simp [dictInsert, dictGet, hne]
  | cons p rest ih =>
    by_cases h : p.1 = k'
    · simp [dictInsert, dictGet, h, hne]
    · simp [dictInsert, dictGet, h, ih]

theorem dictGet_insertAll_not_mem (k : String)
    (m : List (String × SceneData)) (pairs : List (String × SceneData))
    (hk : k ∉ pairs.map Prod.fst) :
    dictGet k (insertAll m pairs) = dictGet k m := by
  induction pairs generalizing m with
  | nil => simp [insertAll]
  | cons p rest ih =>
    simp only [List.map_cons, List.mem_cons, not_or] at hk
    rw [insertAll, ih _ hk.2, dictGet_dictInsert_other _ _ _ _ (Ne.symm hk.1)]

theorem dictGet_insertAll_mem (n : String) (sd : SceneData)
    (m : List (String × SceneData)) (pairs : List (String × SceneData))
    (hnd : (pairs.map Prod.fst).Nodup) (hmem : (n, sd) ∈ pairs) :
    dictGet n (insertAll m pairs) = some sd := by
  induction pairs generalizing m with
  | nil => simp at hmem
  | cons p rest ih =>
    simp only [List.map_cons, List.nodup_cons] at hnd
    rcases List.mem_cons.mp hmem with heq | hrest
    · subst heq
      rw [insertAll, dictGet_insertAll_not_mem _ _ _ hnd.1,
        dictGet_dictInsert_same]
    · exact ih _ hnd.2 hrest

/-- C3 (amended): when the synthesized scene names
(`instance_optionName` over all dynamic-scene options, in generation
order) are pairwise distinct, the effect-name list produced by
`_init_platform_specific` has no duplicates, and looking up any
produced name in the scene mapping returns exactly the
`(instance, value)` record of the option that generated it. -/
theorem scene_init_correct (caps : List DeviceCap)
    (hnd : ((scenePairs caps).map Prod.fst).Nodup) :
    (_init_platform_specific caps).effect_list.Nodup ∧
    ∀ n sd, (n, sd) ∈ scenePairs caps →
      dictGet n (_init_platform_specific caps).scene_mapping = some sd := by
  rcases initLoop_scenes ⟨[], 0, [], []⟩ caps with ⟨h1, h2⟩
  unfold _init_platform_specific
  rw [h1, h2]
  refine ⟨by simpa using hnd, fun n sd hmem => ?_⟩
  exact dictGet_insertAll_mem n sd [] _ hnd hmem

/-- A capability list whose only dynamic-scene capability carries two
options with the same name (and different values). -/
def dupSceneCaps : List DeviceCap :=
  [⟨"devices.capabilities.dynamic_scene", "lightScene",
    [⟨some "A", some (.pyInt 1)⟩, ⟨some "A", some (.pyInt 2)⟩]⟩]

/-- A capability list whose dynamic-scene capability carries two
distinctly named options. -/
def twoSceneCaps : List DeviceCap :=
  [⟨"devices.capabilities.dynamic_scene", "lightScene",
    [⟨some "A", some (.pyInt 1)⟩, ⟨some "B", some (.pyInt 2)⟩]⟩]

/-- Witness for `scene_init_correct`: a capability list with two
distinctly named scene options satisfies the distinctness hypothesis;
the effect list is duplicate-free and a produced name resolves to its
generating record. -/
theorem scene_init_correct_witness :
    ((scenePairs twoSceneCaps).map Prod.fst).Nodup ∧
    (_init_platform_specific twoSceneCaps).effect_list.Nodup ∧
    dictGet "lightScene_A"
        (_init_platform_specific twoSceneCaps).scene_mapping =
      some ⟨"devices.capabilities.dynamic_scene", "lightScene", .pyInt 1⟩ :=
  ⟨by decide, (scene_init_correct twoSceneCaps (by decide)).1,
    (scene_init_correct twoSceneCaps (by decide)).2 "lightScene_A" _
      (by decide)⟩

/-- Counterexample to C3 as stated: with two same-named options in one
dynamic-scene capability, the produced effect list has a duplicate
name, and the name generated by the first option (value 1) does not
resolve to that option's record — the dict binding was overwritten by
the second option (value 2). -/
theorem scene_init_dup_counterexample :
    ¬ (_init_platform_specific dupSceneCaps).effect_list.Nodup ∧
    ("lightScene_A",
      (⟨"devices.capabilities.dynamic_scene", "lightScene", .pyInt 1⟩ :
        SceneData)) ∈ scenePairs dupSceneCaps ∧
    dictGet "lightScene_A"
        (_init_platform_specific dupSceneCaps).scene_mapping ≠
      some ⟨"devices.capabilities.dynamic_scene", "lightScene", .pyInt 1⟩ := by
  refine ⟨by decide, by decide, by decide⟩


/-- Embedding of `GoveeLifeLight.state`: look the cached `powerSwitch` value up in
`_state_mapping` with default `STATE_UNKNOWN` (the warning log on the
unknown branch has no effect on the returned value). -/
def GoveeLifeLight.state (state_mapping : List (PyVal × String))
    (cachedPower : PyVal) : String :=
  (dictGet cachedPower state_mapping).getD STATE_UNKNOWN

/-- Embedding of `GoveeLifeLight.is_on`: `self.state == STATE_ON`. -/
def GoveeLifeLight.is_on (state_mapping : List (PyVal × String))
    (cachedPower : PyVal) : Bool :=
  GoveeLifeLight.state state_mapping cachedPower = STATE_ON

/-- C4: a cached power value that is not a key of the power-state
mapping yields the `STATE_UNKNOWN` state; being a total function of
the cached value, the property raises no exception. -/
theorem state_unknown_on_unmapped (state_mapping : List (PyVal × String))
    (cachedPower : PyVal) (h : dictGet cachedPower state_mapping = none) :
    GoveeLifeLight.state state_mapping cachedPower = STATE_UNKNOWN := by
  simp [GoveeLifeLight.state, h]

/-- Witness for `state_unknown_on_unmapped`: the usual on/off mapping
with the unmapped cached value `pyInt 5`. -/
theorem state_unknown_on_unmapped_witness :
    GoveeLifeLight.state [(.pyInt 1, STATE_ON), (.pyInt 0, STATE_OFF)]
      (.pyInt 5) = STATE_UNKNOWN :=
  state_unknown_on_unmapped [(.pyInt 1, STATE_ON), (.pyInt 0, STATE_OFF)]
    (.pyInt 5) (by decide)

/-- Modelled from the spec: Python's `round` (round half to even) of
the fraction `a / b` (`b > 0`), used by the host's brightness helper,
which is not part of this repository. -/
def pyRound (a b : Nat) : Nat :=
  let q := a / b
  let r := a % b
  if 2 * r < b then q
  else if b < 2 * r then q + 1
  else if q % 2 = 0 then q else q + 1

/-- Modelled from the spec: the host helper
`value_to_brightness(self._brightness_scale, value)` used by the
`brightness` property; `_brightness_scale` (defined outside this
module) is the device's percent scale `(1, 100)`, and the helper
linearly rescales to the host scale `(1, 255)` and rounds:
`round(value * 255 / 100)`. -/
def value_to_brightness (value : Nat) : Nat :=
  pyRound (value * 255) 100

/-- Modelled from the spec:
`math.ceil(brightness_to_value(self._brightness_scale, brightness))`
as computed by `async_turn_on`; the host helper linearly rescales the
host value back to the percent scale `(1, 100)`, so the composed
expression is `ceil(brightness * 100 / 255)`. -/
def brightness_to_value_ceil (brightness : Nat) : Nat :=
  (brightness * 100 + 254) / 255

/-- C9: rescaling a valid device-scale (percent) brightness to the
host 0–255 scale and back yields the original value within rounding
tolerance (distance at most 1). -/
theorem brightness_roundtrip (v : Nat) (h1 : 1 ≤ v) (h2 : v ≤ 100) :
    brightness_to_value_ceil (value_to_brightness v) ≤ v + 1 ∧
    v ≤ brightness_to_value_ceil (value_to_brightness v) + 1 := by
  interval_cases v <;> decide

/-- Witness for `brightness_roundtrip` at `v = 50`. -/
theorem brightness_roundtrip_witness :
    brightness_to_value_ceil (value_to_brightness 50) ≤ 51 ∧
    50 ≤ brightness_to_value_ceil (value_to_brightness 50) + 1 :=
  brightness_roundtrip 50 (by decide) (by decide)

/-- A capability command passed to `async_GoveeAPI_ControlDevice`:
`type`, `instance` (embedded as `inst`) and `value`. -/
structure Capability where
  type : String
  inst : String
  value : PyVal
  deriving DecidableEq, Repr

/-- Observable events of the command dispatcher: an awaited remote
control call (with its success result) and a host state-change
notification (`async_write_ha_state`). -/
inductive Event where
  | control (cap : Capability) (ok : Bool)
  | writeState
  deriving DecidableEq, Repr

/-- Embedding of
`if await async_GoveeAPI_ControlDevice(...): self.async_write_ha_state()`:
await the remote call, and notify the host exactly when it succeeded.
The result of each remote call is supplied by the oracle `ctl`. -/
def doCmd (ctl : Capability → Bool) (cap : Capability) : List Event :=
  if ctl cap then [.control cap true, .writeState] else [.control cap false]

/-- The per-entity data `async_turn_on` / `async_turn_off` read:
`_state_mapping`, `_state_mapping_set`, `_scene_mapping`, and the
cached `powerSwitch` value returned by
`GoveeAPI_GetCachedStateValue(..., 'devices.capabilities.on_off',
'powerSwitch')`. -/
structure LightEnt where
  state_mapping : List (PyVal × String)
  state_mapping_set : List (String × PyVal)
  scene_mapping : List (String × SceneData)
  cachedPower : PyVal
  deriving Repr

/-- The keyword arguments of `async_turn_on` (`ATTR_EFFECT`,
`ATTR_BRIGHTNESS`, `ATTR_COLOR_TEMP_KELVIN`, `ATTR_RGB_COLOR`); a
field is `none` when the attribute is absent from the request. -/
structure TurnOnKwargs where
  effect : Option String
  brightness : Option Nat
  color_temp_kelvin : Option Int
  rgb_color : Option (Nat × Nat × Nat)
  deriving DecidableEq, Repr

/-- The `ATTR_EFFECT` block of `async_turn_on`: look the requested
effect name up in `_scene_mapping`; when found, issue the
dynamic-scene command (nothing is issued for an unknown name). -/
def effectPart (ctl : Capability → Bool) (ent : LightEnt)
    (kwargs : TurnOnKwargs) : List Event :=
  match kwargs.effect with
  | none => []
  | some e =>
    match dictGet e ent.scene_mapping with
    | none => []
    | some sd =>
      doCmd ctl ⟨"devices.capabilities.dynamic_scene", sd.inst, sd.value⟩

/-- The `ATTR_BRIGHTNESS` block of `async_turn_on`. -/
def brightnessPart (ctl : Capability → Bool) (kwargs : TurnOnKwargs) :
    List Event :=
  match kwargs.brightness with
  | none => []
  | some b =>
    doCmd ctl ⟨"devices.capabilities.range", "brightness",
      .pyInt (brightness_to_value_ceil b)⟩

/-- The `ATTR_COLOR_TEMP_KELVIN` block of `async_turn_on`. -/
def colorTempPart (ctl : Capability → Bool) (kwargs : TurnOnKwargs) :
    List Event :=
  match kwargs.color_temp_kelvin with
  | none => []
  | some k =>
    doCmd ctl ⟨"devices.capabilities.color_setting", "colorTemperatureK",
      .pyInt k⟩

/-- The `ATTR_RGB_COLOR` block of `async_turn_on`. -/
def rgbPart (ctl : Capability → Bool) (kwargs : TurnOnKwargs) :
    List Event :=
  match kwargs.rgb_color with
  | none => []
  | some rgb =>
    doCmd ctl ⟨"devices.capabilities.color_setting", "colorRgb",
      .pyInt (_getIfromRGB rgb)⟩

/-- The final `if not self.is_on` block of `async_turn_on`: when the
cached power state does not map to on, issue the power-on command with
`self._state_mapping_set[STATE_ON]`; a missing `STATE_ON` binding
raises `KeyError` (flagged `true` in the second component) before any
power command is issued. -/
def powerOnPart (ctl : Capability → Bool) (ent : LightEnt) :
    List Event × Bool :=
  if GoveeLifeLight.is_on ent.state_mapping ent.cachedPower then ([], false)
  else
    match dictGet STATE_ON ent.state_mapping_set with
    | none => ([], true)
    | some v =>
      (doCmd ctl ⟨"devices.capabilities.on_off", "powerSwitch", v⟩, false)

/-- Body of `GoveeLifeLight.async_turn_on` inside its `try`: the event
trace produced, and whether an exception was raised (after the events
already produced). -/
def turnOnBody (ctl : Capability → Bool) (ent : LightEnt)
    (kwargs : TurnOnKwargs) : List Event × Bool :=
  (effectPart ctl ent kwargs ++ brightnessPart ctl kwargs ++
      colorTempPart ctl kwargs ++ rgbPart ctl kwargs ++
      (powerOnPart ctl ent).1,
    (powerOnPart ctl ent).2)

/-- Embedding of `GoveeLifeLight.async_turn_on`: the `except` clause logs the
exception and returns normally, so the observable trace is the body's
trace whether or not an exception was raised. -/
def async_turn_on (ctl : Capability → Bool) (ent : LightEnt)
    (kwargs : TurnOnKwargs) : List Event :=
  (turnOnBody ctl ent kwargs).1

/-- Body of `GoveeLifeLight.async_turn_off` inside its `try`: when the
cached power state maps to on, issue the power-off command with
`self._state_mapping_set[STATE_OFF]` (a missing binding raises
`KeyError`, flagged `true`); otherwise only log. -/
def turnOffBody (ctl : Capability → Bool) (ent : LightEnt) :
    List Event × Bool :=
  if GoveeLifeLight.is_on ent.state_mapping ent.cachedPower then
    match dictGet STATE_OFF ent.state_mapping_set with
    | none => ([], true)
    | some v =>
      (doCmd ctl ⟨"devices.capabilities.on_off", "powerSwitch", v⟩, false)
  else ([], false)

/-- Embedding of `GoveeLifeLight.async_turn_off`: the `except` clause logs and
returns normally. -/
def async_turn_off (ctl : Capability → Bool) (ent : LightEnt) :
    List Event :=
  (turnOffBody ctl ent).1

/-- The remote control calls of a trace, in order. -/
def controlsOf : List Event → List Capability
  | [] => []
  | .control cap _ :: rest => cap :: controlsOf rest
  | .writeState :: rest => controlsOf rest

theorem controlsOf_append (a b : List Event) :
    controlsOf (a ++ b) = controlsOf a ++ controlsOf b := by
  induction a with
  | nil => simp [controlsOf]
  | cons e rest ih => cases e <;> simp [controlsOf, ih]

theorem controlsOf_doCmd (ctl : Capability → Bool) (cap : Capability) :
    controlsOf (doCmd ctl cap) = [cap] := by
  by_cases h : ctl cap <;> simp [doCmd, h, controlsOf]

/-- The command the effect attribute contributes, per the spec's fixed
order: present and resolvable in the scene mapping, or nothing. -/
def effectCmds (ent : LightEnt) (kwargs : TurnOnKwargs) : List Capability :=
  match kwargs.effect with
  | none => []
  | some e =>
    match dictGet e ent.scene_mapping with
    | none => []
    | some sd => [⟨"devices.capabilities.dynamic_scene", sd.inst, sd.value⟩]

/-- The command the brightness attribute contributes. -/
def brightnessCmds (kwargs : TurnOnKwargs) : List Capability :=
  match kwargs.brightness with
  | none => []
  | some b =>
    [⟨"devices.capabilities.range", "brightness",
      .pyInt (brightness_to_value_ceil b)⟩]

/-- The command the color-temperature attribute contributes. -/
def colorTempCmds (kwargs : TurnOnKwargs) : List Capability :=
  match kwargs.color_temp_kelvin with
  | none => []
  | some k =>
    [⟨"devices.capabilities.color_setting", "colorTemperatureK", .pyInt k⟩]

/-- The command the RGB attribute contributes. -/
def rgbCmds (kwargs : TurnOnKwargs) : List Capability :=
  match kwargs.rgb_color with
  | none => []
  | some rgb =>
    [⟨"devices.capabilities.color_setting", "colorRgb",
      .pyInt (_getIfromRGB rgb)⟩]

/-- The power command a turn-on call contributes: only when the cached
power state does not already map to on (and the on-value is mapped). -/
def powerOnCmds (ent : LightEnt) : List Capability :=
  if GoveeLifeLight.is_on ent.state_mapping ent.cachedPower then []
  else
    match dictGet STATE_ON ent.state_mapping_set with
    | none => []
    | some v => [⟨"devices.capabilities.on_off", "powerSwitch", v⟩]

theorem controlsOf_effectPart (ctl : Capability → Bool) (ent : LightEnt)
    (kwargs : TurnOnKwargs) :
    controlsOf (effectPart ctl ent kwargs) = effectCmds ent kwargs := by
  unfold effectPart effectCmds
  cases kwargs.effect with
  | none => simp [controlsOf]
  | some e =>
    cases hx : dictGet e ent.scene_mapping with
    | none => simp [hx, controlsOf]
    | some sd => simp [hx, controlsOf_doCmd]

theorem controlsOf_brightnessPart (ctl : Capability → Bool)
    (kwargs : TurnOnKwargs) :
    controlsOf (brightnessPart ctl kwargs) = brightnessCmds kwargs := by
  unfold brightnessPart brightnessCmds
  match kwargs.brightness with
  | none => simp [controlsOf]
  | some b => simp [controlsOf_doCmd]

theorem controlsOf_colorTempPart (ctl : Capability → Bool)
    (kwargs : TurnOnKwargs) :
    controlsOf (colorTempPart ctl kwargs) = colorTempCmds kwargs := by
  unfold colorTempPart colorTempCmds
  match kwargs.color_temp_kelvin with
  | none => simp [controlsOf]
  | some k => simp [controlsOf_doCmd]

theorem controlsOf_rgbPart (ctl : Capability → Bool)
    (kwargs : TurnOnKwargs) :
    controlsOf (rgbPart ctl kwargs) = rgbCmds kwargs := by
  unfold rgbPart rgbCmds
  match kwargs.rgb_color with
  | none => simp [controlsOf]
  | some rgb => simp [controlsOf_doCmd]

theorem controlsOf_powerOnPart (ctl : Capability → Bool) (ent : LightEnt) :
    controlsOf (powerOnPart ctl ent).1 = powerOnCmds ent := by
  unfold powerOnPart powerOnCmds
  by_cases h : GoveeLifeLight.is_on ent.state_mapping ent.cachedPower
  · simp [h, controlsOf]
  · simp [h]
    match dictGet STATE_ON ent.state_mapping_set with
    | none => simp [controlsOf]
    | some v => simp [controlsOf_doCmd]

/-- C1: the remote calls of one turn-on call are exactly the
per-attribute commands in the fixed order effect, brightness,
color-temperature, RGB, power (each contributed only when the
attribute is present, the power command only when the cached power
state does not already map to on); in particular a call with only
brightness issues exactly the brightness command followed by the
power command when the device is not on, and only the brightness
command when it is. -/
theorem turn_on_command_order (ctl : Capability → Bool) (ent : LightEnt) :
    (∀ kwargs, controlsOf (async_turn_on ctl ent kwargs) =
      effectCmds ent kwargs ++ brightnessCmds kwargs ++
        colorTempCmds kwargs ++ rgbCmds kwargs ++ powerOnCmds ent) ∧
    (∀ b pv, dictGet STATE_ON ent.state_mapping_set = some pv →
      (GoveeLifeLight.state ent.state_mapping ent.cachedPower ≠ STATE_ON →
        controlsOf (async_turn_on ctl ent ⟨none, some b, none, none⟩) =
          [⟨"devices.capabilities.range", "brightness",
              .pyInt (brightness_to_value_ceil b)⟩,
            ⟨"devices.capabilities.on_off", "powerSwitch", pv⟩]) ∧
      (GoveeLifeLight.state ent.state_mapping ent.cachedPower = STATE_ON →
        controlsOf (async_turn_on ctl ent ⟨none, some b, none, none⟩) =
          [⟨"devices.capabilities.range", "brightness",
            .pyInt (brightness_to_value_ceil b)⟩])) := by
  have horder : ∀ kwargs, controlsOf (async_turn_on ctl ent kwargs) =
      effectCmds ent kwargs ++ brightnessCmds kwargs ++
        colorTempCmds kwargs ++ rgbCmds kwargs ++ powerOnCmds ent := by
    intro kwargs
    unfold async_turn_on turnOnBody
    simp only [controlsOf_append, controlsOf_effectPart,
      controlsOf_brightnessPart, controlsOf_colorTempPart,
      controlsOf_rgbPart, controlsOf_powerOnPart]
  refine ⟨horder, fun b pv hset => ⟨fun hoff => ?_, fun hon => ?_⟩⟩
  · rw [horder ⟨none, some b, none, none⟩]
    have hno : GoveeLifeLight.is_on ent.state_mapping ent.cachedPower = false := by
      simp [GoveeLifeLight.is_on, hoff]
    simp [effectCmds, brightnessCmds, colorTempCmds, rgbCmds, powerOnCmds,
      hno, hset]
  · rw [horder ⟨none, some b, none, none⟩]
    have hyes : GoveeLifeLight.is_on ent.state_mapping ent.cachedPower = true := by
      simp [GoveeLifeLight.is_on, hon]
    simp [effectCmds, brightnessCmds, colorTempCmds, rgbCmds, powerOnCmds,
      hyes]

/-- A concrete oracle: every remote call succeeds. -/
def ctlAll : Capability → Bool := fun _ => true

/-- A concrete entity whose cached power state maps to off, with the
usual on/off state mappings. -/
def entOff : LightEnt :=
  ⟨[(.pyStr "on", STATE_ON), (.pyStr "off", STATE_OFF)],
    [(STATE_ON, .pyStr "on"), (STATE_OFF, .pyStr "off")],
    [], .pyStr "off"⟩

/-- A concrete entity whose cached power state maps to on. -/
def entOn : LightEnt :=
  ⟨[(.pyStr "on", STATE_ON), (.pyStr "off", STATE_OFF)],
    [(STATE_ON, .pyStr "on"), (STATE_OFF, .pyStr "off")],
    [], .pyStr "on"⟩

/-- Witness for `turn_on_command_order`: on the off entity, a turn-on
call carrying only brightness 128 issues exactly the brightness and
power commands in that order. -/
theorem turn_on_command_order_witness :
    controlsOf (async_turn_on ctlAll entOff ⟨none, some 128, none, none⟩) =
      [⟨"devices.capabilities.range", "brightness",
          .pyInt (brightness_to_value_ceil 128)⟩,
        ⟨"devices.capabilities.on_off", "powerSwitch", .pyStr "on"⟩] :=
  (((turn_on_command_order ctlAll entOff).2 128 (.pyStr "on")
    (by decide)).1) (by decide)

/-- Traces in which every remote call is awaited and a host
state-change notification follows a remote call exactly when the call
succeeded. -/
inductive NotifySuccess : List Event → Prop
  | nil : NotifySuccess []
  | ok (cap : Capability) (es : List Event) :
      NotifySuccess es → NotifySuccess (.control cap true :: .writeState :: es)
  | fail (cap : Capability) (es : List Event) :
      NotifySuccess es → NotifySuccess (.control cap false :: es)

theorem notifySuccess_doCmd_append (ctl : Capability → Bool)
    (cap : Capability) (es : List Event) (h : NotifySuccess es) :
    NotifySuccess (doCmd ctl cap ++ es) := by
  by_cases hc : ctl cap
  · simpa [doCmd, hc] using NotifySuccess.ok cap es h
  · simpa [doCmd, hc] using NotifySuccess.fail cap es h

theorem notifySuccess_effectPart (ctl : Capability → Bool)
    (ent : LightEnt) (kwargs : TurnOnKwargs) (es : List Event)
    (h : NotifySuccess es) :
    NotifySuccess (effectPart ctl ent kwargs ++ es) := by
  unfold effectPart
  cases kwargs.effect with
  | none => simpa using h
  | some e =>
    cases hx : dictGet e ent.scene_mapping with
    | none => simpa [hx] using h
    | some sd => simpa [hx] using notifySuccess_doCmd_append ctl _ es h

theorem notifySuccess_brightnessPart (ctl : Capability → Bool)
    (kwargs : TurnOnKwargs) (es : List Event) (h : NotifySuccess es) :
    NotifySuccess (brightnessPart ctl kwargs ++ es) := by
  unfold brightnessPart
  cases kwargs.brightness with
  | none => simpa using h
  | some b => exact notifySuccess_doCmd_append ctl _ es h

theorem notifySuccess_colorTempPart (ctl : Capability → Bool)
    (kwargs : TurnOnKwargs) (es : List Event) (h : NotifySuccess es) :
    NotifySuccess (colorTempPart ctl kwargs ++ es) := by
  unfold colorTempPart
  cases kwargs.color_temp_kelvin with
  | none => simpa using h
  | some k => exact notifySuccess_doCmd_append ctl _ es h

theorem notifySuccess_rgbPart (ctl : Capability → Bool)
    (kwargs : TurnOnKwargs) (es : List Event) (h : NotifySuccess es) :
    NotifySuccess (rgbPart ctl kwargs ++ es) := by
  unfold rgbPart
  cases kwargs.rgb_color with
  | none => simpa using h
  | some rgb => exact notifySuccess_doCmd_append ctl _ es h

theorem notifySuccess_powerOnPart (ctl : Capability → Bool)
    (ent : LightEnt) :
    NotifySuccess (powerOnPart ctl ent).1 := by
  unfold powerOnPart
  by_cases h : GoveeLifeLight.is_on ent.state_mapping ent.cachedPower
  · simpa [h] using NotifySuccess.nil
  · simp [h]
    cases hx : dictGet STATE_ON ent.state_mapping_set with
    | none => exact NotifySuccess.nil
    | some v =>
      simpa using notifySuccess_doCmd_append ctl _ [] NotifySuccess.nil

/-- C6: in both turn-on and turn-off, a host state-change notification
follows each awaited remote call exactly when that call returned
success; failed calls produce no notification, and no notification
occurs without a preceding successful call. -/
theorem notify_iff_success (ctl : Capability → Bool) (ent : LightEnt)
    (kwargs : TurnOnKwargs) :
    NotifySuccess (async_turn_on ctl ent kwargs) ∧
    NotifySuccess (async_turn_off ctl ent) := by
  constructor
  · have h5 := notifySuccess_powerOnPart ctl ent
    have h4 := notifySuccess_rgbPart ctl kwargs _ h5
    have h3 := notifySuccess_colorTempPart ctl kwargs _ h4
    have h2 := notifySuccess_brightnessPart ctl kwargs _ h3
    have h1 := notifySuccess_effectPart ctl ent kwargs _ h2
    simpa [async_turn_on, turnOnBody, List.append_assoc] using h1
  · unfold async_turn_off turnOffBody
    by_cases h : GoveeLifeLight.is_on ent.state_mapping ent.cachedPower
    · simp [h]
      cases hx : dictGet STATE_OFF ent.state_mapping_set with
      | none => exact NotifySuccess.nil
      | some v =>
        simpa using notifySuccess_doCmd_append ctl _ [] NotifySuccess.nil
    · simpa [h] using NotifySuccess.nil

/-- C10: turn-off issues the power-off command only when the cached
power state maps to on; otherwise (including an unknown cached value)
it produces no remote call and no notification. -/
theorem turn_off_gating (ctl : Capability → Bool) (ent : LightEnt) :
    (GoveeLifeLight.state ent.state_mapping ent.cachedPower ≠ STATE_ON →
      async_turn_off ctl ent = []) ∧
    (∀ pv, GoveeLifeLight.state ent.state_mapping ent.cachedPower = STATE_ON →
      dictGet STATE_OFF ent.state_mapping_set = some pv →
      async_turn_off ctl ent =
        doCmd ctl ⟨"devices.capabilities.on_off", "powerSwitch", pv⟩) := by
  constructor
  · intro hoff
    have hno : GoveeLifeLight.is_on ent.state_mapping ent.cachedPower = false := by
      simp [GoveeLifeLight.is_on, hoff]
    simp [async_turn_off, turnOffBody, hno]
  · intro pv hon hset
    have hyes : GoveeLifeLight.is_on ent.state_mapping ent.cachedPower = true := by
      simp [GoveeLifeLight.is_on, hon]
    simp [async_turn_off, turnOffBody, hyes, hset]

/-- Witness for `turn_off_gating`: the off entity produces an empty
trace, the on entity issues exactly the power-off command. -/
theorem turn_off_gating_witness :
    async_turn_off ctlAll entOff = [] ∧
    async_turn_off ctlAll entOn =
      doCmd ctlAll ⟨"devices.capabilities.on_off", "powerSwitch", .pyStr "off"⟩ :=
  ⟨(turn_off_gating ctlAll entOff).1 (by decide),
    (turn_off_gating ctlAll entOn).2 (.pyStr "off") (by decide) (by decide)⟩

/-- Inner loop of the `effect` property: first entry of the scene
mapping (in insertion order) whose record matches the scene category
and the cached value. -/
def innerScan (m : List (String × SceneData)) (scene_type : String)
    (value : PyVal) : Option String :=
  match m with
  | [] => none
  | (scene_name, scene_data) :: rest =>
    if scene_data.inst = scene_type ∧ scene_data.value = value then
      some scene_name
    else innerScan rest scene_type value

/-- Outer loop of the `effect` property over the scene categories:
fetch the cached value for the category (`none` embeds Python `None`)
and return the first matching scene name, continuing with the next
category when the value is absent or unmatched. -/
def effectScan (m : List (String × SceneData))
    (cached : String → Option PyVal) : List String → Option String
  | [] => none
  | t :: rest =>
    match cached t with
    | none => effectScan m cached rest
    | some v =>
      match innerScan m t v with
      | some n => some n
      | none => effectScan m cached rest

/-- Embedding of `GoveeLifeLight.effect`: `None` immediately when the effect list
is empty, otherwise scan the categories `lightScene`, `diyScene`,
`snapshot` in that order. -/
def GoveeLifeLight.effect (effect_list : List String)
    (m : List (String × SceneData)) (cached : String → Option PyVal) :
    Option String :=
  if effect_list.isEmpty then none
  else effectScan m cached ["lightScene", "diyScene", "snapshot"]

theorem innerScan_eq_find (m : List (String × SceneData)) (t : String)
    (v : PyVal) :
    innerScan m t v =
      (m.find? fun p => p.2.inst = t ∧ p.2.value = v).map Prod.fst := by
  induction m with
  | nil => simp [innerScan]
  | cons p rest ih =>
    by_cases h : p.2.inst = t ∧ p.2.value = v
    · simp [innerScan, List.find?, h]
    · rw [innerScan]
      rw [if_neg (by exact fun hc => h ⟨hc.1, hc.2⟩)]
      rw [ih, List.find?]
      have hb : (decide (p.2.inst = t ∧ p.2.value = v)) = false := by
        simpa using h
      simp [hb]

theorem effectScan_eq_findSome (m : List (String × SceneData))
    (cached : String → Option PyVal) (ts : List String) :
    effectScan m cached ts =
      ts.findSome? fun t => (cached t).bind fun v => innerScan m t v := by
  induction ts with
  | nil => simp [effectScan]
  | cons t rest ih =>
    rw [effectScan]
    cases hc : cached t with
    | none => simp [hc, List.findSome?, ih]
    | some v =>
      cases hi : innerScan m t v with
      | none => simp [hc, hi, List.findSome?, ih]
      | some n => simp [hc, hi, List.findSome?]

/-- C5: the `effect` property returns `none` immediately when the
effect list is empty; otherwise it scans the categories `lightScene`,
`diyScene`, `snapshot` in order and returns the first scene name
whose mapping entry matches the cached value of that category — where
"first" is the first entry of the scene mapping, in insertion order,
with matching `(instance, value)` — and `none` when no category
matches. -/
theorem effect_scan_characterization (effect_list : List String)
    (m : List (String × SceneData)) (cached : String → Option PyVal) :
    (effect_list = [] →
      GoveeLifeLight.effect effect_list m cached = none) ∧
    (effect_list ≠ [] →
      GoveeLifeLight.effect effect_list m cached =
        ["lightScene", "diyScene", "snapshot"].findSome? fun t =>
          (cached t).bind fun v =>
            (m.find? fun p => p.2.inst = t ∧ p.2.value = v).map Prod.fst) := by
  constructor
  · intro h
    simp [GoveeLifeLight.effect, h]
  · intro h
    rw [GoveeLifeLight.effect, if_neg (by simpa using h),
      effectScan_eq_findSome]
    simp [innerScan_eq_find]

/-- Witness for `effect_scan_characterization`: a two-entry scene
mapping where the cached `lightScene` value is absent and the cached
`diyScene` value matches the second entry. -/
theorem effect_scan_characterization_witness :
    GoveeLifeLight.effect ["lightScene_A", "diyScene_B"]
        [("lightScene_A",
            ⟨"devices.capabilities.dynamic_scene", "lightScene", .pyInt 1⟩),
          ("diyScene_B",
            ⟨"devices.capabilities.dynamic_scene", "diyScene", .pyInt 2⟩)]
        (fun t => if t = "diyScene" then some (.pyInt 2) else none) =
      some "diyScene_B" := by
  rw [(effect_scan_characterization ["lightScene_A", "diyScene_B"]
    [("lightScene_A",
        ⟨"devices.capabilities.dynamic_scene", "lightScene", .pyInt 1⟩),
      ("diyScene_B",
        ⟨"devices.capabilities.dynamic_scene", "diyScene", .pyInt 2⟩)]
    (fun t => if t = "diyScene" then some (.pyInt 2) else none)).2
    (by decide)]
  decide

/-- Data key `CONF_SCAN_INTERVAL` of the poll-interval service. -/
def CONF_SCAN_INTERVAL : String := "scan_interval"

/-- Per-entry data stored under `hass.data[DOMAIN]`. -/
def EntryData : Type := List (String × PyVal)

/-- Embedding of `async_service_SetPollInterval`: returns the updated
`hass.data[DOMAIN]` store.  A missing `scan_interval` or `entry_id`
parameter logs and returns with the store unchanged; an `entry_id`
that is not a key of the store raises `KeyError` inside the `try`,
which the `except` clause swallows, also leaving the store
unchanged. -/
def async_service_SetPollInterval
    (data : List (String × EntryData)) (scan_interval : Option PyVal)
    (entry_id : Option String) : List (String × EntryData) :=
  match scan_interval with
  | none => data
  | some si =>
    match entry_id with
    | none => data
    | some eid =>
      match dictGet eid data with
      | none => data
      | some entry =>
        dictInsert eid (dictInsert CONF_SCAN_INTERVAL si entry) data

/-- Embedding of `async_service_SetSegmentColors`: the trace it produces.
`call.target.get("entity_id")` returning `None` (or an empty list)
makes the `[0]` subscript raise inside the `try`, swallowed by the
`except`; an entity id missing from `hass.data[DOMAIN]` logs and
returns; otherwise one `segmentColor` command is issued (with no
state-change notification in this service). -/
def async_service_SetSegmentColors (ctl : Capability → Bool)
    (entities : List (String × LightEnt))
    (target_entity_ids : Option (List String)) (segments : PyVal) :
    List Event :=
  match target_entity_ids with
  | none => []
  | some [] => []
  | some (eid :: _) =>
    match dictGet eid entities with
    | none => []
    | some _ =>
      [.control ⟨"devices.capabilities.segment_color_setting",
        "segmentColor", segments⟩
        (ctl ⟨"devices.capabilities.segment_color_setting",
          "segmentColor", segments⟩)]

/-- C7: each public entry point converts internal failures into a
no-op return instead of propagating them: the poll-interval service
leaves the store unchanged when either required parameter is absent or
the entry id is unknown; the segment-colors service issues nothing
when the target is absent/empty; and when the power-mapping lookup of
turn-on raises (flag `true`), turn-on still returns exactly the events
already issued before the failure, while a raising turn-off returns an
empty trace. -/
theorem entry_points_swallow_errors :
    (∀ (data : List (String × EntryData)) (si : Option PyVal)
        (eid : Option String),
      (si = none → async_service_SetPollInterval data si eid = data) ∧
      (eid = none → async_service_SetPollInterval data si eid = data) ∧
      (∀ e, eid = some e → dictGet e data = none →
        async_service_SetPollInterval data si eid = data)) ∧
    (∀ (ctl : Capability → Bool) (entities : List (String × LightEnt))
        (segments : PyVal),
      async_service_SetSegmentColors ctl entities none segments = [] ∧
      async_service_SetSegmentColors ctl entities (some []) segments = [] ∧
      (∀ eid rest, dictGet eid entities = none →
        async_service_SetSegmentColors ctl entities (some (eid :: rest))
          segments = [])) ∧
    (∀ (ctl : Capability → Bool) (ent : LightEnt) (kwargs : TurnOnKwargs),
      (turnOnBody ctl ent kwargs).2 = true →
        async_turn_on ctl ent kwargs =
          effectPart ctl ent kwargs ++ brightnessPart ctl kwargs ++
            colorTempPart ctl kwargs ++ rgbPart ctl kwargs) ∧
    (∀ (ctl : Capability → Bool) (ent : LightEnt),
      (turnOffBody ctl ent).2 = true → async_turn_off ctl ent = []) := by
  refine ⟨fun data si eid => ⟨?_, ?_, ?_⟩, fun ctl entities segments =>
    ⟨rfl, rfl, ?_⟩, fun ctl ent kwargs herr => ?_, fun ctl ent herr => ?_⟩
  · intro h
    simp [async_service_SetPollInterval, h]
  · intro h
    cases hs : si with
    | none => simp [async_service_SetPollInterval]
    | some s => simp [async_service_SetPollInterval, h]
  · intro e he hd
    cases hs : si with
    | none => simp [async_service_SetPollInterval]
    | some s => simp [async_service_SetPollInterval, he, hd]
  · intro eid rest hd
    simp [async_service_SetSegmentColors, hd]
  · have hp : (powerOnPart ctl ent).1 = [] := by
      unfold turnOnBody at herr
      unfold powerOnPart at herr ⊢
      by_cases h : GoveeLifeLight.is_on ent.state_mapping ent.cachedPower
      · simp [h]
      · simp [h] at herr ⊢
        cases hx : dictGet STATE_ON ent.state_mapping_set with
        | none => simp [hx]
        | some v => simp [hx] at herr
    unfold async_turn_on turnOnBody
    rw [hp]
    simp
  · unfold turnOffBody at herr
    unfold async_turn_off turnOffBody
    by_cases h : GoveeLifeLight.is_on ent.state_mapping ent.cachedPower
    · simp [h] at herr ⊢
      cases hx : dictGet STATE_OFF ent.state_mapping_set with
      | none => simp [hx]
      | some v => simp [hx] at herr
    · simp [h]

/-- Witness for `entry_points_swallow_errors`: a store with one entry,
a missing `scan_interval` parameter, and a raising turn-off (cached
state on, no off-value in the set mapping). -/
theorem entry_points_swallow_errors_witness :
    async_service_SetPollInterval [("e1", [])] none (some "e1") =
        [("e1", [])] ∧
    async_turn_off ctlAll
        ⟨[(.pyStr "on", STATE_ON)], [], [], .pyStr "on"⟩ = [] :=
  ⟨(entry_points_swallow_errors.1 [("e1", [])] none (some "e1")).1 rfl,
    entry_points_swallow_errors.2.2.2 ctlAll
      ⟨[(.pyStr "on", STATE_ON)], [], [], .pyStr "on"⟩ (by decide)⟩

/-- Embedding of `async_registerService`: `hass.services` under the
domain, embedded as the list of registered names; a name is appended
only when `has_service` does not already report it. -/
def async_registerService (services : List String) (name : String) :
    List String :=
  if name ∈ services then services else services ++ [name]

/-- C8: registering a service name is idempotent — a second
registration of the same name changes nothing (and raises no error) —
and a registry holding a name at most once holds it exactly once after
registration. -/
theorem register_service_idempotent (services : List String)
    (name : String) :
    async_registerService (async_registerService services name) name =
        async_registerService services name ∧
    (name ∈ services → async_registerService services name = services) ∧
    (List.count name services ≤ 1 →
      List.count name (async_registerService services name) = 1) := by
  by_cases h : name ∈ services
  · refine ⟨by simp [async_registerService, h], fun _ => by
      simp [async_registerService, h], fun hc => ?_⟩
    have h1 : 1 ≤ List.count name services := List.one_le_count_iff.mpr h
    simp [async_registerService, h]
    omega
  · have hni : List.count name services = 0 := by
      simpa using List.count_eq_zero.mpr h
    refine ⟨?_, fun hmem => absurd hmem h, fun _ => ?_⟩
    · simp [async_registerService, h]
    · simp [async_registerService, h, hni]

/-- Witness for `register_service_idempotent` on the registry already
holding the name once. -/
theorem register_service_idempotent_witness :
    async_registerService
        (async_registerService ["set_segment_colors"] "set_segment_colors")
        "set_segment_colors" =
      async_registerService ["set_segment_colors"] "set_segment_colors" ∧
    List.count "set_segment_colors"
        (async_registerService ["set_segment_colors"] "set_segment_colors") =
      1 :=
  ⟨(register_service_idempotent ["set_segment_colors"]
      "set_segment_colors").1,
    (register_service_idempotent ["set_segment_colors"]
      "set_segment_colors").2.2 (by decide)⟩
